import Mathlib

/-!
Shallow embedding of the LLM request gateway of GitHubSentinel
(src/proxy_llm.py and src/llm.py), together with a model of the parts of
its HTTP stack that the gateway configures (requests.Session mounted with
an HTTPAdapter carrying urllib3.Retry(total=max_retries, backoff_factor=1,
status_forcelist=[429, 500, 502, 503, 504])).

Python values flowing through the gateway are modelled as JSON-like
values; Python exceptions as an explicit error type threaded through
Except; the network as a function from the attempt index to the response
the backend gives on that attempt; the filesystem as a map from paths to
file contents plus a writability predicate.
-/

/-- A Python/JSON value as it appears in the gateway code: dicts keep the
insertion order of their keys, numbers that occur in the source are all
integers. -/
inductive Json where
  | null : Json
  | bool : Bool → Json
  | num : Int → Json
  | str : String → Json
  | arr : List Json → Json
  | obj : List (String × Json) → Json

/-- Python exceptions that the embedded code can raise. -/
inductive PyExc where
  | attributeError
  | indexError
  | keyError
  | typeError
  | valueError : String → PyExc
  | osError
  | fileNotFoundError
  | requestException
deriving DecidableEq

/-- Python truthiness of a value (`if x:`). -/
def Json.truthy : Json → Bool
  | Json.null => false
  | Json.bool b => b
  | Json.num n => n != 0
  | Json.str s => s != ("")
  | Json.arr xs => !xs.isEmpty
  | Json.obj fs => !fs.isEmpty

/-- Python truthiness of an optional string (os.getenv results, default
None parameters). -/
def optTruthy : Option String → Bool
  | none => false
  | some s => s != ("")

/-- Python `x.get(key, default)`: only dicts have a `get` attribute, on
every other value the attribute lookup raises AttributeError. -/
def Json.pyGet : Json → String → Json → Except PyExc Json
  | Json.obj fs, k, d => Except.ok ((fs.lookup k).getD d)
  | _, _, _ => Except.error PyExc.attributeError

/-- Python subscription `x[i]` for the value shapes the gateway code
subscripts: lists and strings by integer (with negative indexing),
dicts by key. -/
def Json.subscript : Json → Json → Except PyExc Json
  | Json.arr xs, Json.num i =>
      let j : Int := if i < 0 then i + (xs.length : Int) else i
      if j < 0 then Except.error PyExc.indexError
      else match xs[j.toNat]? with
        | some v => Except.ok v
        | none => Except.error PyExc.indexError
  | Json.str s, Json.num i =>
      let j : Int := if i < 0 then i + (s.length : Int) else i
      if j < 0 then Except.error PyExc.indexError
      else match s.toList[j.toNat]? with
        | some ch => Except.ok (Json.str (String.singleton ch))
        | none => Except.error PyExc.indexError
  | Json.obj fs, Json.str k =>
      match fs.lookup k with
      | some v => Except.ok v
      | none => Except.error PyExc.keyError
  | Json.obj _, _ => Except.error PyExc.keyError
  | _, _ => Except.error PyExc.typeError

/-- Hex digit used by the \uXXXX escapes of json.dump. -/
def hexDigitChar (n : Nat) : Char :=
  if n < 10 then Char.ofNat (48 + n) else Char.ofNat (87 + n)

/-- Four lowercase hex digits. -/
def hex4 (n : Nat) : String :=
  String.mk [hexDigitChar (n / 4096 % 16), hexDigitChar (n / 256 % 16),
             hexDigitChar (n / 16 % 16), hexDigitChar (n % 16)]

/-- How json.dump escapes one character inside a string literal
(ensure_ascii=False, so characters above U+001F other than the quote and
the backslash are written as themselves). -/
def escapeJsonChar (c : Char) : String :=
  if c = '"' then ("\\\"")
  else if c = '\\' then ("\\\\")
  else if c = '\n' then ("\\n")
  else if c = '\t' then ("\\t")
  else if c = '\r' then ("\\r")
  else if c.toNat = 8 then ("\\b")
  else if c.toNat = 12 then ("\\f")
  else if c.toNat < 32 then ("\\u") ++ hex4 c.toNat
  else String.singleton c

/-- json.dump string escaping. -/
def escapeJsonString (s : String) : String :=
  String.join (s.toList.map escapeJsonChar)

/-- The indentation json.dump emits for nesting level lvl when indent=4. -/
def jsonIndentPad (lvl : Nat) : String :=
  String.mk (List.replicate (4 * lvl) ' ')

mutual
/-- Serialization of a value exactly as
json.dump(value, f, indent=4, ensure_ascii=False) writes it. -/
def Json.dumpIndent : Nat → Json → String
  | _, Json.null => ("null")
  | _, Json.bool true => ("true")
  | _, Json.bool false => ("false")
  | _, Json.num n => toString n
  | _, Json.str s => ("\"") ++ escapeJsonString s ++ ("\"")
  | _, Json.arr [] => ("[]")
  | lvl, Json.arr (x :: xs) =>
      ("[\n") ++ String.intercalate (",\n") (dumpListIndent (lvl + 1) (x :: xs))
        ++ ("\n") ++ jsonIndentPad lvl ++ ("]")
  | _, Json.obj [] => ("\x7b\x7d")
  | lvl, Json.obj (f :: fs) =>
      ("\x7b\n") ++ String.intercalate (",\n") (dumpFieldsIndent (lvl + 1) (f :: fs))
        ++ ("\n") ++ jsonIndentPad lvl ++ ("\x7d")

/-- Array elements, each on its own indented line. -/
def dumpListIndent : Nat → List Json → List String
  | _, [] => []
  | lvl, x :: xs =>
      (jsonIndentPad lvl ++ Json.dumpIndent lvl x) :: dumpListIndent lvl xs

/-- Object entries, each on its own indented line, key and value joined
by the default key separator of json.dump. -/
def dumpFieldsIndent : Nat → List (String × Json) → List String
  | _, [] => []
  | lvl, (k, v) :: fs =>
      (jsonIndentPad lvl ++ ("\"") ++ escapeJsonString k ++ ("\": ")
        ++ Json.dumpIndent lvl v) :: dumpFieldsIndent lvl fs
end

/-- Top-level call json.dump(obj, f, indent=4, ensure_ascii=False). -/
def jsonDumpIndent4 (j : Json) : String := Json.dumpIndent 0 j

/-! ## The HTTP transport the gateway configures

Both gateway modules build a requests.Session mounted with an HTTPAdapter
whose urllib3.Retry policy is Retry(total=max_retries, backoff_factor=1,
status_forcelist=[429, 500, 502, 503, 504], allowed_methods incl. POST).
The backend is modelled as a function from the attempt index to the
response the server gives on that attempt. -/

/-- An HTTP response: status code and (already decoded) JSON body. -/
structure HttpResponse where
  status : Nat
  body : Json

/-- One HTTP request as observed on the wire: method, URL, the session
headers, and the JSON body. -/
structure RequestRecord where
  method : String
  url : String
  headers : List (String × String)
  body : Json

/-- The statuses the configured urllib3.Retry policy retries on
(status_forcelist of both gateway modules). -/
def status_forcelist : List Nat := [429, 500, 502, 503, 504]

/-- urllib3 Retry.DEFAULT_BACKOFF_MAX. -/
def BACKOFF_MAX : Nat := 120

/-- urllib3 Retry.get_backoff_time for the given backoff_factor: 0 before
the first retry, backoff_factor * 2^(n-1) capped at BACKOFF_MAX before
retry n for n ≥ 2 (consecutive_errors_len counts the failed attempts in
the history when the sleep happens). -/
def get_backoff_time (backoff_factor : Nat) (consecutive_errors_len : Nat) : Nat :=
  if consecutive_errors_len ≤ 1 then 0
  else min BACKOFF_MAX (backoff_factor * 2 ^ (consecutive_errors_len - 1))

/-- Outcome of the retry loop inside the mounted adapter: a final
response handed back to requests, or MaxRetryError (surfaced by requests
as a RetryError) when the retry budget is exhausted on a forcelist
status. -/
inductive TransportOutcome where
  | ok : HttpResponse → TransportOutcome
  | retryError : TransportOutcome

/-- What one session.request call did: every request sent on the wire,
every backoff sleep performed between attempts, and the outcome. -/
structure SessionResult where
  requests : List RequestRecord
  sleeps : List Nat
  outcome : TransportOutcome

/-- The retry loop of the mounted adapter: send the request; on a
status in status_forcelist consume one retry (sleeping
get_backoff_time of the number of consecutive failures so far, with the
backoff_factor = 1 both modules configure), otherwise hand the response
back; raise once the budget is exhausted. attempt counts the requests
already sent before this call, so the initial call passes 0. -/
def sessionSend (backend : Nat → HttpResponse) (req : RequestRecord) :
    Nat → Nat → SessionResult
  | attempt, retriesLeft =>
    if (backend attempt).status ∈ status_forcelist then
      match retriesLeft with
      | 0 => ⟨[req], [], TransportOutcome.retryError⟩
      | r + 1 =>
        let rest := sessionSend backend req (attempt + 1) r
        ⟨req :: rest.requests, get_backoff_time 1 (attempt + 1) :: rest.sleeps,
          rest.outcome⟩
    else ⟨[req], [], TransportOutcome.ok (backend attempt)⟩

/-- The CustomHTTPClient of both gateway modules: a requests.Session
whose headers were set at construction, with the Retry policy above
mounted; the two modules differ only in how the constructor fills the
headers, so the constructors live in the per-module namespaces. -/
structure CustomHTTPClient where
  headers : List (String × String)
  proxies : Option String
  max_retries : Nat
  timeout : Nat
deriving DecidableEq

/-- CustomHTTPClient.request: perform self.session.request(method, url,
json=json_data, timeout=self.timeout), then response.raise_for_status(),
returning response.json(); every requests.exceptions.RequestException
(RetryError on exhaustion, HTTPError from raise_for_status) is caught,
logged and turned into the empty dict. -/
def CustomHTTPClient.request (self : CustomHTTPClient)
    (backend : Nat → HttpResponse) (method url : String) (json_data : Json) :
    List RequestRecord × Json :=
  let req : RequestRecord :=
    { method := method, url := url, headers := self.headers, body := json_data }
  let sr := sessionSend backend req 0 self.max_retries
  match sr.outcome with
  | TransportOutcome.retryError => (sr.requests, Json.obj [])
  | TransportOutcome.ok resp =>
      if 400 ≤ resp.status then (sr.requests, Json.obj [])
      else (sr.requests, resp.body)

/-- The environment a gateway call runs in: the HTTP backend (attempt
index ↦ response), the OpenAI SDK (request data ↦ the list of
choices[i].message.content values, or an exception), and which paths the
local filesystem lets the process open for writing. -/
structure World where
  backend : Nat → HttpResponse
  sdkChoices : Json → Except PyExc (List Json)
  writable : String → Bool

/-! ## Code shared verbatim by the two gateway modules

Lines 126-132 of src/proxy_llm.py (repeated at 151-157) and lines
102-110 of src/llm.py are character-identical; they are translated once
here and used by both modules. -/

/-- Lines `if not prompt: prompt = self.default_prompt`: the default is
substituted whenever the passed prompt is falsy, i.e. None or the empty
string. -/
def effectivePrompt (prompt : Option String) (default_prompt : String) : String :=
  match prompt with
  | none => default_prompt
  | some p => if p = ("") then default_prompt else p

/-- The two-message conversation both generate methods build:
`messages = [{"role": "system", "content": prompt},
{"role": "user", "content": markdown_content}]`. -/
def mkMessages (prompt markdown_content : String) : Json :=
  Json.arr [Json.obj [(("role"), Json.str ("system")), (("content"), Json.str prompt)],
            Json.obj [(("role"), Json.str ("user")), (("content"), Json.str markdown_content)]]

/-- The client object an LLM instance holds: the OpenAI SDK client, a
CustomHTTPClient, or nothing at all (the proxy module's __init__ sets no
self.client when model_type matches none of its three branches). -/
inductive ClientModel where
  | openaiC : ClientModel
  | custom : CustomHTTPClient → ClientModel
  | unset : ClientModel

/-- Everything one generate call produced besides the new gateway state:
the returned value, the HTTP requests sent, and the files written. -/
structure GenResult where
  result : Json
  requests : List RequestRecord
  fileWrites : List (String × String)

/-- The value a generate call returned (null when it raised). -/
def resultOf {α : Type} (x : Except PyExc (α × GenResult)) : Json :=
  match x with
  | Except.ok (_, g) => g.result
  | Except.error _ => Json.null

/-- The HTTP requests a generate call sent. -/
def requestsOf {α : Type} (x : Except PyExc (α × GenResult)) : List RequestRecord :=
  match x with
  | Except.ok (_, g) => g.requests
  | Except.error _ => []

/-- The files a generate call wrote. -/
def writesOf {α : Type} (x : Except PyExc (α × GenResult)) : List (String × String) :=
  match x with
  | Except.ok (_, g) => g.fileWrites
  | Except.error _ => []

/-! ## src/proxy_llm.py -/

namespace proxy_llm

/-- Constant API_URL of src/proxy_llm.py. -/
def API_URL : String := ("https://api.yesapikey.com/v1/chat/completions")

/-- Constant OLLAMA_API_URL of src/proxy_llm.py. -/
def OLLAMA_API_URL : String := ("http://localhost:11434/api/chat")

/-- Constant DEFAULT_MAX_RETRIES of src/proxy_llm.py. -/
def DEFAULT_MAX_RETRIES : Nat := 5

/-- Constant DEFAULT_TIMEOUT of src/proxy_llm.py. -/
def DEFAULT_TIMEOUT : Nat := 2000

/-- CustomHTTPClient.__init__ of src/proxy_llm.py: the Authorization and
Content-Type headers are set only when api_key is truthy, the proxies
only when proxy_url is truthy. -/
def mkCustomHTTPClient (api_key proxy_url : Option String)
    (max_retries timeout : Nat) : CustomHTTPClient :=
  { headers :=
      match api_key with
      | some k =>
          if k = ("") then []
          else [(("Authorization"), ("Bearer ") ++ k),
                (("Content-Type"), ("application/json"))]
      | none => []
  , proxies :=
      match proxy_url with
      | some u => if u = ("") then none else some u
      | none => none
  , max_retries := max_retries
  , timeout := timeout }

/-- The request body built for the non-ollama branch of _get_response
(lines 69-75 of src/proxy_llm.py). -/
def forwardData (model_name : String) (messages : Json) : Json :=
  Json.obj [(("model"), Json.str model_name),
            (("messages"), messages),
            (("temperature"), Json.num 1),
            (("max_tokens"), Json.num 100),
            (("top_p"), Json.num 1)]

/-- The request body built for the ollama branch of _get_response
(lines 58-66 of src/proxy_llm.py). -/
def ollamaData (model_name : String) (messages : Json) : Json :=
  Json.obj [(("model"), Json.str model_name),
            (("messages"), messages),
            (("max_tokens"), Json.num 10000),
            (("context_length"), Json.num 10000),
            (("top_p"), Json.num 1),
            (("temperature"), Json.num 1),
            (("stream"), Json.bool false)]

/-- Lines 84-90 of src/proxy_llm.py: `choices = response.get('choices')`,
return choices[0]['message']['content'] when choices is truthy, log and
return "" otherwise. -/
def yesapiParse (response : Json) : Except PyExc (Option Json) := do
  let choices ← response.pyGet ("choices") Json.null
  if choices.truthy then
    let c0 ← choices.subscript (Json.num 0)
    let msg ← c0.subscript (Json.str ("message"))
    let content ← msg.subscript (Json.str ("content"))
    pure (some content)
  else
    pure (some (Json.str ("")))

/-- Lines 91-97 of src/proxy_llm.py: take
response.get("message", \x7b\x7d).get("content"); return it when truthy.
Otherwise the code evaluates the f-string
`f"无法从响应中提取报告内容。\x7bresponse.text\x7d"` — but response here is the
dict returned by CustomHTTPClient.request, and a dict has no attribute
`text`, so this raises AttributeError before the following
`raise ValueError("Ollama API 返回的响应结构无效")` line can run. -/
def ollamaParse (response : Json) : Except PyExc (Option Json) := do
  let msg ← response.pyGet ("message") (Json.obj [])
  let content ← msg.pyGet ("content") Json.null
  if content.truthy then
    pure (some content)
  else
    throw PyExc.attributeError

/-- The try-block of _get_response (lines 55-97 of src/proxy_llm.py):
build the backend-specific request data and URL, dispatch on model_type,
and either return a value (`Except.ok (some v)`), fall through to the
final `return ""` (`Except.ok none`, reached when model_type matches no
parsing branch), or raise (`Except.error`). Alongside, the HTTP requests
sent on the wire. -/
def _get_response_try (world : World) (client : ClientModel)
    (model_type model_name : String) (messages : Json) :
    List RequestRecord × Except PyExc (Option Json) :=
  let data := if model_type = ("ollama") then ollamaData model_name messages
              else forwardData model_name messages
  let request_api_url := if model_type = ("ollama") then OLLAMA_API_URL else API_URL
  if model_type = ("openai") then
    match client with
    | ClientModel.openaiC =>
        match world.sdkChoices data with
        | Except.error e => ([], Except.error e)
        | Except.ok [] => ([], Except.error PyExc.indexError)
        | Except.ok (c :: _) => ([], Except.ok (some c))
    | _ => ([], Except.error PyExc.attributeError)
  else
    match client with
    | ClientModel.custom cc =>
        let rr := cc.request world.backend ("POST") request_api_url data
        if model_type = ("yesapi") then (rr.1, yesapiParse rr.2)
        else if model_type = ("ollama") then (rr.1, ollamaParse rr.2)
        else (rr.1, Except.ok none)
    | _ => ([], Except.error PyExc.attributeError)

/-- Function _get_response of src/proxy_llm.py: every exception of the try-block
is caught and logged, after which control falls to the final
`return ""`. -/
def _get_response (world : World) (client : ClientModel)
    (model_type model_name : String) (messages : Json) :
    List RequestRecord × Json :=
  let rr := _get_response_try world client model_type model_name messages
  match rr.2 with
  | Except.ok (some v) => (rr.1, v)
  | Except.ok none => (rr.1, Json.str (""))
  | Except.error _ => (rr.1, Json.str (""))

/-- The state of an LLM instance of src/proxy_llm.py after __init__. -/
structure LLM where
  max_retries : Nat
  timeout : Nat
  prompt_file_path : String
  model_type : String
  model_name : String
  client : ClientModel
  proxy_url : Option String
  api_key : Option String
  default_prompt : String

/-- LLM.__init__ of src/proxy_llm.py: select the client by model_type
("yesapi" wires a CustomHTTPClient with the OPENAI_API_KEY environment
variable and API_URL, "ollama" one with no key and OLLAMA_API_URL), then
read the default prompt template from prompt_file_path, failing the
construction when the file does not exist. -/
def LLM.init (env_api_key : Option String) (fs : String → Option String)
    (max_retries : Nat) (model_type model_name prompt_file_path : String)
    (timeout : Nat) : Except PyExc LLM :=
  let client : ClientModel :=
    if model_type = ("openai") then ClientModel.openaiC
    else if model_type = ("yesapi") then
      ClientModel.custom (mkCustomHTTPClient env_api_key (some API_URL) max_retries timeout)
    else if model_type = ("ollama") then
      ClientModel.custom (mkCustomHTTPClient none (some OLLAMA_API_URL) max_retries timeout)
    else ClientModel.unset
  let proxy_url : Option String :=
    if model_type = ("yesapi") then some API_URL
    else if model_type = ("ollama") then some OLLAMA_API_URL
    else none
  let api_key : Option String :=
    if model_type = ("yesapi") then env_api_key else none
  match fs prompt_file_path with
  | none => Except.error PyExc.fileNotFoundError
  | some tmpl =>
      Except.ok { max_retries := max_retries, timeout := timeout,
                  prompt_file_path := prompt_file_path, model_type := model_type,
                  model_name := model_name, client := client,
                  proxy_url := proxy_url, api_key := api_key,
                  default_prompt := tmpl }

/-- LLM.generate_github_daily_report of src/proxy_llm.py (lines
125-148): resolve the prompt, build the two-message conversation; in dry
run serialize it to self.prompt_file_path (open(..., "w+") raising when
the path cannot be opened for writing) and return "DRY RUN"; otherwise
call _get_response and return its content when truthy, "" when not. The
method assigns no attribute of self, so the state comes back unchanged. -/
def LLM.generate_github_daily_report (world : World) (self : LLM)
    (markdown_content : String) (prompt : Option String) (dry_run : Bool) :
    Except PyExc (LLM × GenResult) :=
  let p := effectivePrompt prompt self.default_prompt
  let messages := mkMessages p markdown_content
  if dry_run then
    if world.writable self.prompt_file_path then
      Except.ok (self,
        { result := Json.str ("DRY RUN")
          requests := []
          fileWrites := [(self.prompt_file_path, jsonDumpIndent4 messages)] })
    else Except.error PyExc.osError
  else
    let r := _get_response world self.client self.model_type self.model_name messages
    if r.2.truthy then
      Except.ok (self, { result := r.2, requests := r.1, fileWrites := [] })
    else
      Except.ok (self, { result := Json.str (""), requests := r.1, fileWrites := [] })

/-- LLM.generate_hn_daily_report of src/proxy_llm.py (lines 150-173),
whose body is character-for-character the body of
generate_github_daily_report. -/
def LLM.generate_hn_daily_report (world : World) (self : LLM)
    (markdown_content : String) (prompt : Option String) (dry_run : Bool) :
    Except PyExc (LLM × GenResult) :=
  let p := effectivePrompt prompt self.default_prompt
  let messages := mkMessages p markdown_content
  if dry_run then
    if world.writable self.prompt_file_path then
      Except.ok (self,
        { result := Json.str ("DRY RUN")
          requests := []
          fileWrites := [(self.prompt_file_path, jsonDumpIndent4 messages)] })
    else Except.error PyExc.osError
  else
    let r := _get_response world self.client self.model_type self.model_name messages
    if r.2.truthy then
      Except.ok (self, { result := r.2, requests := r.1, fileWrites := [] })
    else
      Except.ok (self, { result := Json.str (""), requests := r.1, fileWrites := [] })

end proxy_llm

/-! ## src/llm.py -/

namespace llm_py

/-- Constant API_URL of src/llm.py. -/
def API_URL : String := ("https://api.yesapikey.com/v1/chat/completions")

/-- Constant MODEL_NAME of src/llm.py. -/
def MODEL_NAME : String := ("gpt-4o-mini")

/-- Constant DEFAULT_MAX_RETRIES of src/llm.py. -/
def DEFAULT_MAX_RETRIES : Nat := 5

/-- Constant DEFAULT_TIMEOUT of src/llm.py. -/
def DEFAULT_TIMEOUT : Nat := 30

/-- The Python str() rendering an f-string applies to an optional
string: None prints as "None". -/
def pyStrOfOpt : Option String → String
  | none => ("None")
  | some s => s

/-- CustomHTTPClient.__init__ of src/llm.py: unlike the proxy module's,
it always sets the Authorization and Content-Type headers, interpolating
the api_key (os.getenv result, possibly None) into the header value. -/
def mkCustomHTTPClient (api_key proxy_url : Option String)
    (max_retries timeout : Nat) : CustomHTTPClient :=
  { headers := [(("Authorization"), ("Bearer ") ++ pyStrOfOpt api_key),
                (("Content-Type"), ("application/json"))]
  , proxies :=
      match proxy_url with
      | some u => if u = ("") then none else some u
      | none => none
  , max_retries := max_retries
  , timeout := timeout }

/-- The request body built by _get_response of src/llm.py (lines 56-62). -/
def forwardData (messages : Json) : Json :=
  Json.obj [(("model"), Json.str MODEL_NAME),
            (("messages"), messages),
            (("temperature"), Json.num 1),
            (("max_tokens"), Json.num 1000),
            (("top_p"), Json.num 1)]

/-- Lines 73-77 of src/llm.py:
`if response and response.get('choices'):` (short-circuit: the get is
only evaluated on a truthy response), then
`content = response['choices'][0]['message']['content']; return content`;
on the else branch control falls through to the final `return ""`
(`Except.ok none`). -/
def llmParse (response : Json) : Except PyExc (Option Json) := do
  if response.truthy then
    let g ← response.pyGet ("choices") Json.null
    if g.truthy then
      let cs ← response.subscript (Json.str ("choices"))
      let c0 ← cs.subscript (Json.num 0)
      let msg ← c0.subscript (Json.str ("message"))
      let content ← msg.subscript (Json.str ("content"))
      pure (some content)
    else pure none
  else pure none

/-- The try-block of _get_response of src/llm.py (lines 63-77):
isinstance(client, CustomHTTPClient) routes to the proxy POST; any other
client is used as the OpenAI SDK
(`client.chat.completions.create(**data)`, returning
response.choices[0].message.content, IndexError on an empty choices
list, AttributeError when the object has no such attributes). -/
def _get_response_try (world : World) (client : ClientModel) (messages : Json) :
    List RequestRecord × Except PyExc (Option Json) :=
  let data := forwardData messages
  match client with
  | ClientModel.custom cc =>
      let rr := cc.request world.backend ("POST") API_URL data
      (rr.1, llmParse rr.2)
  | ClientModel.openaiC =>
      match world.sdkChoices data with
      | Except.error e => ([], Except.error e)
      | Except.ok [] => ([], Except.error PyExc.indexError)
      | Except.ok (c :: _) => ([], Except.ok (some c))
  | ClientModel.unset => ([], Except.error PyExc.attributeError)

/-- Function _get_response of src/llm.py: every exception of the try-block is
caught and logged, after which control falls to the final `return ""`. -/
def _get_response (world : World) (client : ClientModel) (messages : Json) :
    List RequestRecord × Json :=
  let rr := _get_response_try world client messages
  match rr.2 with
  | Except.ok (some v) => (rr.1, v)
  | Except.ok none => (rr.1, Json.str (""))
  | Except.error _ => (rr.1, Json.str (""))

/-- The state of an LLM instance of src/llm.py after __init__. -/
structure LLM where
  proxy_url : Option String
  max_retries : Nat
  timeout : Nat
  api_key : Option String
  client : ClientModel
  default_prompt : String

/-- LLM.__init__ of src/llm.py: the client is a CustomHTTPClient when
the OPENAI_PROXY_URL environment variable is truthy, the OpenAI SDK
otherwise; the default prompt is read from the fixed path
"./../prompts/report_prompt.txt", failing the construction when the file
does not exist. -/
def LLM.init (env_proxy_url env_api_key : Option String)
    (fs : String → Option String) (max_retries timeout : Nat) :
    Except PyExc LLM :=
  let client : ClientModel :=
    if optTruthy env_proxy_url then
      ClientModel.custom (mkCustomHTTPClient env_api_key env_proxy_url max_retries timeout)
    else ClientModel.openaiC
  match fs (("./../prompts/report_prompt.txt")) with
  | none => Except.error PyExc.fileNotFoundError
  | some tmpl =>
      Except.ok { proxy_url := env_proxy_url, max_retries := max_retries,
                  timeout := timeout, api_key := env_api_key,
                  client := client, default_prompt := tmpl }

/-- LLM.generate_daily_report of src/llm.py (lines 102-126): resolve the
prompt, build the two-message conversation; in dry run serialize it to
the fixed path "daily_progress/prompt.txt" and return "DRY RUN";
otherwise call _get_response and return its content when truthy, ""
when not. The method assigns no attribute of self. -/
def LLM.generate_daily_report (world : World) (self : LLM)
    (markdown_content : String) (prompt : Option String) (dry_run : Bool) :
    Except PyExc (LLM × GenResult) :=
  let p := effectivePrompt prompt self.default_prompt
  let messages := mkMessages p markdown_content
  if dry_run then
    if world.writable (("daily_progress/prompt.txt")) then
      Except.ok (self,
        { result := Json.str ("DRY RUN")
          requests := []
          fileWrites := [((("daily_progress/prompt.txt")), jsonDumpIndent4 messages)] })
    else Except.error PyExc.osError
  else
    let r := _get_response world self.client messages
    if r.2.truthy then
      Except.ok (self, { result := r.2, requests := r.1, fileWrites := [] })
    else
      Except.ok (self, { result := Json.str (""), requests := r.1, fileWrites := [] })

end llm_py

/-! ## Mocked environments used by the testable properties -/

/-- The response body a successful Forwarded (yesapi-style) backend
echoes: choices[0].message.content = c. -/
def mockForwardSuccess (c : String) : Json :=
  Json.obj [(("choices"),
    Json.arr [Json.obj [(("message"), Json.obj [(("content"), Json.str c)])]])]

/-- A world with the given HTTP backend, an SDK that always fails with a
connection error, and a fully writable filesystem. -/
def worldOf (backend : Nat → HttpResponse) : World :=
  { backend := backend
  , sdkChoices := fun _ => Except.error PyExc.requestException
  , writable := fun _ => true }

/-- A fixture CustomHTTPClient as the proxy module's __init__ builds it
for model_type "yesapi" with OPENAI_API_KEY = "k" and max_retries = 2. -/
def yesapiClientA : CustomHTTPClient :=
  proxy_llm.mkCustomHTTPClient (some ("k")) (some proxy_llm.API_URL) 2 2000

/-- A fixture proxy-module gateway in the Forwarded ("yesapi") variant
with a known default prompt template. -/
def yesapiStateA : proxy_llm.LLM :=
  { max_retries := 2
  , timeout := 2000
  , prompt_file_path := ("prompts/github_openai_report_prompt.txt")
  , model_type := ("yesapi")
  , model_name := ("gpt-4o-mini")
  , client := ClientModel.custom yesapiClientA
  , proxy_url := some proxy_llm.API_URL
  , api_key := some ("k")
  , default_prompt := ("Summarize the following:") }

/-- A fixture llm-module gateway routed through the proxy client. -/
def llmClientA : CustomHTTPClient :=
  llm_py.mkCustomHTTPClient (some ("k")) (some ("http://proxy.example")) 5 30

/-- A fixture llm-module gateway state. -/
def llmStateA : llm_py.LLM :=
  { proxy_url := some ("http://proxy.example")
  , max_retries := 5
  , timeout := 30
  , api_key := some ("k")
  , client := ClientModel.custom llmClientA
  , default_prompt := ("Summarize the following:") }

/-- A fixture proxy-module gateway in the Local ("ollama") variant. -/
def ollamaStateA : proxy_llm.LLM :=
  { max_retries := 5
  , timeout := 2000
  , prompt_file_path := ("prompts/p.txt")
  , model_type := ("ollama")
  , model_name := ("llama3.2")
  , client := ClientModel.custom
      (proxy_llm.mkCustomHTTPClient none (some proxy_llm.OLLAMA_API_URL) 5 2000)
  , proxy_url := some proxy_llm.OLLAMA_API_URL
  , api_key := none
  , default_prompt := ("P") }

/-- The digest of the spec's concrete scenario. -/
def digestA : String := ("- fix bug #1\n- add feature #2")

/-- A one-file filesystem holding a prompt template, for construction
fixtures. -/
def fsA : String → Option String :=
  fun p => if p = ("prompts/p.txt") then some ("Summarize the following:") else none

/-- The client the proxy module's __init__ builds for the C10
construction fixture. -/
def initClientA : CustomHTTPClient :=
  proxy_llm.mkCustomHTTPClient (some ("k")) (some proxy_llm.API_URL) 5 2000

/-- The state proxy_llm.LLM.init produces from fsA with model_type
"yesapi", OPENAI_API_KEY "k" and prompt file prompts/p.txt. -/
def initStateA : proxy_llm.LLM :=
  { max_retries := 5
  , timeout := 2000
  , prompt_file_path := ("prompts/p.txt")
  , model_type := ("yesapi")
  , model_name := ("gpt-4o-mini")
  , client := ClientModel.custom initClientA
  , proxy_url := some proxy_llm.API_URL
  , api_key := some ("k")
  , default_prompt := ("Summarize the following:") }

/-! ## Transport lemmas -/

/-- A backend whose first answer is not a retried status makes
session.request return that answer after exactly one request and no
sleep. -/
theorem sessionSend_first_ok (backend : Nat → HttpResponse) (req : RequestRecord)
    (a m : Nat) (h : (backend a).status ∉ status_forcelist) :
    sessionSend backend req a m = ⟨[req], [], TransportOutcome.ok (backend a)⟩ := by
  rw [sessionSend.eq_def]
  simp [h]

theorem sessionSend_all500 (req : RequestRecord) (body : Json) :
    ∀ (m a : Nat),
    sessionSend (fun _ => ⟨500, body⟩) req a m =
      ⟨List.replicate (m + 1) req,
       (List.range m).map (fun i => get_backoff_time 1 (a + 1 + i)),
       TransportOutcome.retryError⟩ := by
  intro m
  induction m with
  | zero =>
    intro a
    rw [sessionSend.eq_def]
    simp [status_forcelist]
  | succ n ih =>
    intro a
    rw [sessionSend.eq_def]
    simp only [status_forcelist, List.mem_cons, List.mem_singleton]
    norm_num
    rw [ih (a + 1)]
    simp [List.replicate_succ, List.range_succ_eq_map, List.map_map, Function.comp]
    intro i _
    congr 1
    omega

theorem sessionSend_503_until (k : Nat) (body okBody : Json) (req : RequestRecord) :
    ∀ (m j : Nat), k ≤ j + m →
    sessionSend (fun i => if i < k then ⟨503, body⟩ else ⟨200, okBody⟩) req j m =
      ⟨List.replicate (k - j + 1) req,
       (List.range (k - j)).map (fun i => get_backoff_time 1 (j + 1 + i)),
       TransportOutcome.ok ⟨200, okBody⟩⟩ := by
  intro m
  induction m with
  | zero =>
    intro j hj
    have hjk : ¬ j < k := by omega
    have hkj : k - j = 0 := by omega
    rw [sessionSend.eq_def]
    simp [hjk, hkj, status_forcelist]
  | succ n ih =>
    intro j hj
    by_cases hjk : j < k
    · have hkj : k - j = (k - (j + 1)) + 1 := by omega
      rw [sessionSend.eq_def]
      simp only [hjk, if_true]
      rw [if_pos (show (503 : Nat) ∈ status_forcelist by simp [status_forcelist])]
      rw [ih (j + 1) (by omega)]
      simp [hkj, List.replicate_succ, List.range_succ_eq_map, List.map_map, Function.comp]
      intro i _
      congr 1
      omega
    · have hkj : k - j = 0 := by omega
      rw [sessionSend.eq_def]
      simp [hjk, hkj, status_forcelist]

theorem sessionSend_requests_all (backend : Nat → HttpResponse) (req : RequestRecord) :
    ∀ (m a : Nat), ∀ r ∈ (sessionSend backend req a m).requests, r = req := by
  intro m
  induction m with
  | zero =>
    intro a r hr
    rw [sessionSend.eq_def] at hr
    by_cases h : (backend a).status ∈ status_forcelist <;> simp [h] at hr <;> exact hr
  | succ n ih =>
    intro a r hr
    rw [sessionSend.eq_def] at hr
    by_cases h : (backend a).status ∈ status_forcelist
    · simp [h] at hr
      rcases hr with h1 | h2
      · exact h1
      · exact ih (a + 1) r h2
    · simp [h] at hr
      exact hr

theorem sessionSend_requests_len_le (backend : Nat → HttpResponse) (req : RequestRecord) :
    ∀ (m a : Nat), (sessionSend backend req a m).requests.length ≤ m + 1 := by
  intro m
  induction m with
  | zero =>
    intro a
    rw [sessionSend.eq_def]
    by_cases h : (backend a).status ∈ status_forcelist <;> simp [h]
  | succ n ih =>
    intro a
    rw [sessionSend.eq_def]
    by_cases h : (backend a).status ∈ status_forcelist
    · simp only [h, if_true]
      have hx := ih (a + 1)
      simp only [List.length_cons]
      omega
    · simp only [h, if_neg, ite_false]
      simp

theorem sessionSend_requests_ne_nil (backend : Nat → HttpResponse) (req : RequestRecord)
    (m a : Nat) : (sessionSend backend req a m).requests ≠ [] := by
  rw [sessionSend.eq_def]
  by_cases h : (backend a).status ∈ status_forcelist
  · simp only [h, if_true]
    match m with
    | 0 => simp
    | n + 1 => simp
  · simp [h]

/-- One CustomHTTPClient.request against a backend that always answers
200: one request on the wire, the decoded body handed back. -/
theorem request_const200 (cc : CustomHTTPClient) (body : Json) (url : String)
    (data : Json) :
    cc.request (fun _ => ⟨200, body⟩) ("POST") url data =
      ([⟨("POST"), url, cc.headers, data⟩], body) := by
  simp only [CustomHTTPClient.request]
  rw [sessionSend_first_ok _ _ _ _ (by simp [status_forcelist])]
  simp

/-- One CustomHTTPClient.request against a backend that always answers
500: the retry budget is spent, max_retries + 1 identical requests go
out, and the caught RetryError becomes the empty dict. -/
theorem request_all500 (cc : CustomHTTPClient) (rbody : Json) (url : String)
    (data : Json) :
    cc.request (fun _ => ⟨500, rbody⟩) ("POST") url data =
      (List.replicate (cc.max_retries + 1) ⟨("POST"), url, cc.headers, data⟩,
       Json.obj []) := by
  simp only [CustomHTTPClient.request]
  rw [sessionSend_all500]

/-- One CustomHTTPClient.request against a backend answering 503 on the
first k attempts and 200 afterwards, with k within the retry budget:
k + 1 identical requests go out and the 200 body is handed back. -/
theorem request_503_until (cc : CustomHTTPClient) (k : Nat) (b1 b2 : Json)
    (url : String) (data : Json) (hk : k ≤ cc.max_retries) :
    cc.request (fun i => if i < k then ⟨503, b1⟩ else ⟨200, b2⟩) ("POST") url data =
      (List.replicate (k + 1) ⟨("POST"), url, cc.headers, data⟩, b2) := by
  simp only [CustomHTTPClient.request]
  rw [sessionSend_503_until k b1 b2 _ cc.max_retries 0 (by omega)]
  simp

/-- Parsing the successful Forwarded mock in the proxy module yields
exactly the mocked content. -/
theorem yesapiParse_mock (c : String) :
    proxy_llm.yesapiParse (mockForwardSuccess c) = Except.ok (some (Json.str c)) := rfl

/-- Parsing the successful Forwarded mock in the llm module yields
exactly the mocked content. -/
theorem llmParse_mock (c : String) :
    llm_py.llmParse (mockForwardSuccess c) = Except.ok (some (Json.str c)) := rfl

/-- C1: for every non-empty digest and every mocked-success Forwarded
backend whose content field holds the text c, both
proxy_llm.LLM.generate_github_daily_report and
llm_py.LLM.generate_daily_report with dry_run = false return exactly c,
with no alteration. -/
theorem claim_C1 (w : World) (s : proxy_llm.LLM) (s2 : llm_py.LLM)
    (cc cc2 : CustomHTTPClient) (md c : String) (po : Option String)
    (hmd : md ≠ (""))
    (hb : w.backend = fun _ => ⟨200, mockForwardSuccess c⟩)
    (hmt : s.model_type = ("yesapi"))
    (hcl : s.client = ClientModel.custom cc)
    (hcl2 : s2.client = ClientModel.custom cc2) :
    resultOf (proxy_llm.LLM.generate_github_daily_report w s md po false) = Json.str c ∧
    resultOf (llm_py.LLM.generate_daily_report w s2 md po false) = Json.str c := by
  constructor
  · simp only [proxy_llm.LLM.generate_github_daily_report, hmt, hcl, hb,
      proxy_llm._get_response, proxy_llm._get_response_try]
    simp only [request_const200, yesapiParse_mock]
    by_cases hc : c = ("")
    · subst hc
      simp [resultOf, Json.truthy]
    · simp [resultOf, Json.truthy, bne_iff_ne, hc]
  · simp only [llm_py.LLM.generate_daily_report, hcl2, hb,
      llm_py._get_response, llm_py._get_response_try]
    simp only [request_const200, llmParse_mock]
    by_cases hc : c = ("")
    · subst hc
      simp [resultOf, Json.truthy]
    · simp [resultOf, Json.truthy, bne_iff_ne, hc]

/-- C1 witness: the spec's concrete scenario — digest
"- fix bug #1\n- add feature #2", mocked Forwarded backend echoing
content "Two changes landed." — instantiating claim_C1. -/
theorem claim_C1_witness :
    digestA ≠ ("") ∧
    resultOf (proxy_llm.LLM.generate_github_daily_report
        (worldOf (fun _ => ⟨200, mockForwardSuccess ("Two changes landed.")⟩))
        yesapiStateA digestA none false) = Json.str ("Two changes landed.") ∧
    resultOf (llm_py.LLM.generate_daily_report
        (worldOf (fun _ => ⟨200, mockForwardSuccess ("Two changes landed.")⟩))
        llmStateA digestA none false) = Json.str ("Two changes landed.") :=
  ⟨by decide,
   (claim_C1 (worldOf (fun _ => ⟨200, mockForwardSuccess ("Two changes landed.")⟩))
      yesapiStateA llmStateA yesapiClientA llmClientA digestA ("Two changes landed.")
      none (by decide) rfl rfl rfl rfl).1,
   (claim_C1 (worldOf (fun _ => ⟨200, mockForwardSuccess ("Two changes landed.")⟩))
      yesapiStateA llmStateA yesapiClientA llmClientA digestA ("Two changes landed.")
      none (by decide) rfl rfl rfl rfl).2⟩

/-- C9: in the proxy gateway module, generate_github_daily_report and
generate_hn_daily_report agree on every input and every gateway state —
their source bodies are character-identical, so they return equal
results and perform the same effects. -/
theorem claim_C9 (w : World) (s : proxy_llm.LLM) (md : String)
    (po : Option String) (dr : Bool) :
    proxy_llm.LLM.generate_github_daily_report w s md po dr =
      proxy_llm.LLM.generate_hn_daily_report w s md po dr := rfl

/-- C3: with dry_run = true both gateways send no HTTP request, write the
serialized two-message conversation to their fixed location (the
instance's prompt_file_path for the proxy module, daily_progress/prompt.txt
for the llm module), and return the sentinel "DRY RUN" whatever the
backend would answer; the call fails only when that location is not
writable, with a local filesystem error. -/
theorem claim_C3 (w : World) (s : proxy_llm.LLM) (s2 : llm_py.LLM)
    (md : String) (po : Option String) :
    (w.writable s.prompt_file_path = true →
      proxy_llm.LLM.generate_github_daily_report w s md po true =
        Except.ok (s,
          { result := Json.str ("DRY RUN")
            requests := []
            fileWrites := [(s.prompt_file_path,
              jsonDumpIndent4 (mkMessages (effectivePrompt po s.default_prompt) md))] })) ∧
    (w.writable s.prompt_file_path = false →
      proxy_llm.LLM.generate_github_daily_report w s md po true =
        Except.error PyExc.osError) ∧
    (w.writable (("daily_progress/prompt.txt")) = true →
      llm_py.LLM.generate_daily_report w s2 md po true =
        Except.ok (s2,
          { result := Json.str ("DRY RUN")
            requests := []
            fileWrites := [((("daily_progress/prompt.txt")),
              jsonDumpIndent4 (mkMessages (effectivePrompt po s2.default_prompt) md))] })) ∧
    (w.writable (("daily_progress/prompt.txt")) = false →
      llm_py.LLM.generate_daily_report w s2 md po true =
        Except.error PyExc.osError) := by
  refine ⟨fun h => ?_, fun h => ?_, fun h => ?_, fun h => ?_⟩ <;>
    simp [proxy_llm.LLM.generate_github_daily_report,
      llm_py.LLM.generate_daily_report, h]

/-- C3 witness: the dry-run sentinel on the concrete fixtures, with a
fully writable filesystem, instantiating claim_C3. -/
theorem claim_C3_witness :
    (worldOf (fun _ => ⟨200, Json.null⟩)).writable yesapiStateA.prompt_file_path = true ∧
    proxy_llm.LLM.generate_github_daily_report (worldOf (fun _ => ⟨200, Json.null⟩))
        yesapiStateA digestA none true =
      Except.ok (yesapiStateA,
        { result := Json.str ("DRY RUN")
          requests := []
          fileWrites := [(yesapiStateA.prompt_file_path,
            jsonDumpIndent4 (mkMessages (effectivePrompt none yesapiStateA.default_prompt) digestA))] }) ∧
    llm_py.LLM.generate_daily_report (worldOf (fun _ => ⟨200, Json.null⟩))
        llmStateA digestA none true =
      Except.ok (llmStateA,
        { result := Json.str ("DRY RUN")
          requests := []
          fileWrites := [((("daily_progress/prompt.txt")),
            jsonDumpIndent4 (mkMessages (effectivePrompt none llmStateA.default_prompt) digestA))] }) :=
  ⟨rfl,
   (claim_C3 (worldOf (fun _ => ⟨200, Json.null⟩)) yesapiStateA llmStateA digestA none).1 rfl,
   (claim_C3 (worldOf (fun _ => ⟨200, Json.null⟩)) yesapiStateA llmStateA digestA none).2.2.1 rfl⟩

/-- C10: for a proxy-module gateway built by __init__ from a prompt file
at path p, a dry_run = true call leaves the whole gateway state
(default_prompt included) unchanged — the returned state is the input
state — while overwriting the file at that same path p, the one the
default prompt template was loaded from, with the serialized two-message
conversation; no HTTP request is sent. -/
theorem claim_C10 (env_api_key : Option String) (fs : String → Option String)
    (m : Nat) (mt mn p : String) (t : Nat) (w : World)
    (s : proxy_llm.LLM) (md : String) (po : Option String)
    (hinit : proxy_llm.LLM.init env_api_key fs m mt mn p t = Except.ok s)
    (hw : w.writable p = true) :
    s.prompt_file_path = p ∧
    fs p = some s.default_prompt ∧
    proxy_llm.LLM.generate_github_daily_report w s md po true =
      Except.ok (s,
        { result := Json.str ("DRY RUN")
          requests := []
          fileWrites := [(p,
            jsonDumpIndent4 (mkMessages (effectivePrompt po s.default_prompt) md))] }) := by
  simp only [proxy_llm.LLM.init] at hinit
  cases hfs : fs p with
  | none =>
    rw [hfs] at hinit
    exact absurd hinit (by simp)
  | some tmpl =>
    rw [hfs] at hinit
    simp only [Except.ok.injEq] at hinit
    subst hinit
    refine ⟨rfl, rfl, ?_⟩
    simp [proxy_llm.LLM.generate_github_daily_report, hw]

/-- C10 witness: a concrete construction over the one-file filesystem
fsA, instantiating claim_C10. -/
theorem claim_C10_witness :
    proxy_llm.LLM.init (some ("k")) fsA 5 ("yesapi") ("gpt-4o-mini")
        ("prompts/p.txt") 2000 = Except.ok initStateA ∧
    (worldOf (fun _ => ⟨200, Json.null⟩)).writable (("prompts/p.txt")) = true ∧
    proxy_llm.LLM.generate_github_daily_report (worldOf (fun _ => ⟨200, Json.null⟩))
        initStateA ("md") none true =
      Except.ok (initStateA,
        { result := Json.str ("DRY RUN")
          requests := []
          fileWrites := [((("prompts/p.txt")),
            jsonDumpIndent4 (mkMessages (effectivePrompt none initStateA.default_prompt) ("md")))] }) :=
  ⟨rfl, rfl,
   (claim_C10 (some ("k")) fsA 5 ("yesapi") ("gpt-4o-mini") ("prompts/p.txt") 2000
      (worldOf (fun _ => ⟨200, Json.null⟩)) initStateA ("md") none rfl rfl).2.2⟩

/-- C2 counterexample: on total exhaustion (backend always 500, budget
max_retries = 2) generate returns the plain empty string — the value is
Except.ok, not a typed failure, and it is identical to what generate
returns in a non-exhausted run whose 200 response carried content "";
so the exhausted outcome is not a failure value of a distinct kind
Exhausted. Exactly max_retries + 1 = 3 requests were sent. -/
theorem claim_C2_counterexample :
    proxy_llm.LLM.generate_github_daily_report (worldOf (fun _ => ⟨500, Json.null⟩))
        yesapiStateA ("digest") none false =
      Except.ok (yesapiStateA,
        { result := Json.str ("")
          requests := List.replicate 3
            { method := ("POST")
              url := proxy_llm.API_URL
              headers := yesapiClientA.headers
              body := proxy_llm.forwardData ("gpt-4o-mini")
                (mkMessages ("Summarize the following:") ("digest")) }
          fileWrites := [] }) ∧
    resultOf (proxy_llm.LLM.generate_github_daily_report
        (worldOf (fun _ => ⟨200, mockForwardSuccess ("")⟩))
        yesapiStateA ("digest") none false) = Json.str ("") :=
  ⟨rfl, rfl⟩

/-- C2 (amended): when every transport attempt fails with status 500,
generate returns normally (it never raises) with the empty-string
failure sentinel — the same untyped value used for every failure kind,
not a typed Exhausted failure — and exactly max_retries + 1 identical
requests are sent; max_retries is configurable per client and its
module-level default is 5. -/
theorem claim_C2 (w : World) (s : proxy_llm.LLM) (cc : CustomHTTPClient)
    (md : String) (po : Option String) (m : Nat)
    (hb : w.backend = fun _ => ⟨500, Json.null⟩)
    (hmt : s.model_type = ("yesapi"))
    (hcl : s.client = ClientModel.custom cc)
    (hm : cc.max_retries = m) :
    proxy_llm.DEFAULT_MAX_RETRIES = 5 ∧
    proxy_llm.LLM.generate_github_daily_report w s md po false =
      Except.ok (s,
        { result := Json.str ("")
          requests := List.replicate (m + 1)
            { method := ("POST")
              url := proxy_llm.API_URL
              headers := cc.headers
              body := proxy_llm.forwardData s.model_name
                (mkMessages (effectivePrompt po s.default_prompt) md) }
          fileWrites := [] }) := by
  refine ⟨rfl, ?_⟩
  simp only [proxy_llm.LLM.generate_github_daily_report, hmt, hcl, hb,
    proxy_llm._get_response, proxy_llm._get_response_try]
  simp only [request_all500, hm]
  simp [proxy_llm.yesapiParse, Json.pyGet, Json.truthy, Bind.bind, Except.bind,
    Pure.pure, Except.pure]

/-- C2 witness: the amended statement instantiated on the concrete
all-500 world and the max_retries = 2 fixture gateway. -/
theorem claim_C2_witness :
    proxy_llm.DEFAULT_MAX_RETRIES = 5 ∧
    proxy_llm.LLM.generate_github_daily_report (worldOf (fun _ => ⟨500, Json.null⟩))
        yesapiStateA ("digest") none false =
      Except.ok (yesapiStateA,
        { result := Json.str ("")
          requests := List.replicate (2 + 1)
            { method := ("POST")
              url := proxy_llm.API_URL
              headers := yesapiClientA.headers
              body := proxy_llm.forwardData yesapiStateA.model_name
                (mkMessages (effectivePrompt none yesapiStateA.default_prompt) ("digest")) }
          fileWrites := [] }) :=
  claim_C2 (worldOf (fun _ => ⟨500, Json.null⟩)) yesapiStateA yesapiClientA
    ("digest") none 2 rfl rfl rfl rfl

/-- C5: when the Forwarded backend answers 503 on the first k attempts
and 200 with content c on attempt k+1, with k below the retry budget,
the call succeeds with c, exactly k+1 requests are observed, and every
attempt carries the identical request body (the conversation is built
once and never mutated between retries). -/
theorem claim_C5 (w : World) (s : proxy_llm.LLM) (cc : CustomHTTPClient)
    (md c : String) (po : Option String) (k : Nat)
    (hmt : s.model_type = ("yesapi"))
    (hcl : s.client = ClientModel.custom cc)
    (hk : k < cc.max_retries)
    (hb : w.backend =
      fun i => if i < k then ⟨503, Json.null⟩ else ⟨200, mockForwardSuccess c⟩) :
    resultOf (proxy_llm.LLM.generate_github_daily_report w s md po false) = Json.str c ∧
    requestsOf (proxy_llm.LLM.generate_github_daily_report w s md po false) =
      List.replicate (k + 1)
        { method := ("POST")
          url := proxy_llm.API_URL
          headers := cc.headers
          body := proxy_llm.forwardData s.model_name
            (mkMessages (effectivePrompt po s.default_prompt) md) } ∧
    (requestsOf (proxy_llm.LLM.generate_github_daily_report w s md po false)).length
      = k + 1 := by
  have hreq := fun (url : String) (data : Json) =>
    request_503_until cc k Json.null (mockForwardSuccess c) url data
      (Nat.le_of_lt hk)
  simp only [proxy_llm.LLM.generate_github_daily_report, hmt, hcl, hb,
    proxy_llm._get_response, proxy_llm._get_response_try]
  simp only [hreq, yesapiParse_mock]
  by_cases hc : c = ("")
  · subst hc
    simp [resultOf, requestsOf, Json.truthy]
  · simp [resultOf, requestsOf, Json.truthy, bne_iff_ne, hc]

/-- C5 witness: k = 1 failing attempt then success, on the
max_retries = 2 fixture gateway, instantiating claim_C5. -/
theorem claim_C5_witness :
    (1 : Nat) < yesapiClientA.max_retries ∧
    resultOf (proxy_llm.LLM.generate_github_daily_report
        (worldOf (fun i => if i < 1 then ⟨503, Json.null⟩
          else ⟨200, mockForwardSuccess ("Two changes landed.")⟩))
        yesapiStateA ("digest") none false) = Json.str ("Two changes landed.") ∧
    (requestsOf (proxy_llm.LLM.generate_github_daily_report
        (worldOf (fun i => if i < 1 then ⟨503, Json.null⟩
          else ⟨200, mockForwardSuccess ("Two changes landed.")⟩))
        yesapiStateA ("digest") none false)).length = 1 + 1 :=
  ⟨by decide,
   (claim_C5 (worldOf (fun i => if i < 1 then ⟨503, Json.null⟩
        else ⟨200, mockForwardSuccess ("Two changes landed.")⟩))
      yesapiStateA yesapiClientA ("digest") ("Two changes landed.") none 1
      rfl rfl (by decide) rfl).1,
   (claim_C5 (worldOf (fun i => if i < 1 then ⟨503, Json.null⟩
        else ⟨200, mockForwardSuccess ("Two changes landed.")⟩))
      yesapiStateA yesapiClientA ("digest") ("Two changes landed.") none 1
      rfl rfl (by decide) rfl).2.2⟩

/-- The requests a CustomHTTPClient.request call puts on the wire are
exactly the requests of its session retry loop, whatever the outcome. -/
theorem request_requests (cc : CustomHTTPClient) (backend : Nat → HttpResponse)
    (method url : String) (data : Json) :
    (cc.request backend method url data).1 =
      (sessionSend backend
        { method := method, url := url, headers := cc.headers, body := data }
        0 cc.max_retries).requests := by
  simp only [CustomHTTPClient.request]
  split
  · rfl
  · split <;> rfl

/-- requestsOf commutes with the truthiness branch of generate, whose
two arms carry the same request list. -/
theorem requestsOf_ite {α : Type} (c : Prop) [Decidable c] (s : α) (v1 v2 : Json)
    (R : List RequestRecord) :
    requestsOf (if c then Except.ok (s, { result := v1, requests := R, fileWrites := [] })
      else Except.ok (s, { result := v2, requests := R, fileWrites := [] })) = R := by
  split <;> rfl

/-- The proxy module's _get_response forwards the wire trace of its
try-block unchanged. -/
theorem proxy_get_response_fst (w : World) (cl : ClientModel) (mt mn : String)
    (ms : Json) :
    (proxy_llm._get_response w cl mt mn ms).1 =
      (proxy_llm._get_response_try w cl mt mn ms).1 := by
  simp only [proxy_llm._get_response]
  split <;> rfl

/-- In the Forwarded ("yesapi") branch the try-block's wire trace is the
trace of one client request against API_URL with the forwarded body. -/
theorem proxy_try_fst_yesapi (w : World) (cc : CustomHTTPClient) (mn : String)
    (ms : Json) :
    (proxy_llm._get_response_try w (ClientModel.custom cc) ("yesapi") mn ms).1 =
      (cc.request w.backend ("POST") proxy_llm.API_URL (proxy_llm.forwardData mn ms)).1 :=
  rfl

/-- For a Forwarded-variant gateway, the non-dry-run generate call sends
exactly the requests of one session.request against API_URL with the
forwarded body, whatever the backend answers. -/
theorem yesapi_requests (w : World) (s : proxy_llm.LLM) (cc : CustomHTTPClient)
    (md : String) (po : Option String)
    (hmt : s.model_type = ("yesapi"))
    (hcl : s.client = ClientModel.custom cc) :
    requestsOf (proxy_llm.LLM.generate_github_daily_report w s md po false) =
      (sessionSend w.backend
        { method := ("POST")
          url := proxy_llm.API_URL
          headers := cc.headers
          body := proxy_llm.forwardData s.model_name
            (mkMessages (effectivePrompt po s.default_prompt) md) }
        0 cc.max_retries).requests := by
  simp only [proxy_llm.LLM.generate_github_daily_report, hmt, hcl]
  simp only [Bool.false_eq_true, if_false]
  rw [requestsOf_ite]
  rw [proxy_get_response_fst, proxy_try_fst_yesapi, request_requests]

/-- C8: every request a Forwarded-variant call puts on the wire — on the
first attempt and on every retry, whatever the backend answers — is a
POST to API_URL whose body is exactly
model / messages / temperature 1 / max_tokens 100 / top_p 1 in that
order, carrying the headers Authorization: Bearer credential and
Content-Type: application/json; and at least one request is sent. -/
theorem claim_C8 (w : World) (s : proxy_llm.LLM) (key : String)
    (pu : Option String) (m t : Nat) (md : String) (po : Option String)
    (hmt : s.model_type = ("yesapi"))
    (hcl : s.client =
      ClientModel.custom (proxy_llm.mkCustomHTTPClient (some key) pu m t))
    (hkey : key ≠ ("")) :
    requestsOf (proxy_llm.LLM.generate_github_daily_report w s md po false) ≠ [] ∧
    ∀ r ∈ requestsOf (proxy_llm.LLM.generate_github_daily_report w s md po false),
      r = { method := ("POST")
            url := proxy_llm.API_URL
            headers := [(("Authorization"), ("Bearer ") ++ key),
                        (("Content-Type"), ("application/json"))]
            body := proxy_llm.forwardData s.model_name
              (mkMessages (effectivePrompt po s.default_prompt) md) } := by
  have hh : (proxy_llm.mkCustomHTTPClient (some key) pu m t).headers =
      [(("Authorization"), ("Bearer ") ++ key),
       (("Content-Type"), ("application/json"))] := by
    simp [proxy_llm.mkCustomHTTPClient, hkey]
  rw [yesapi_requests w s (proxy_llm.mkCustomHTTPClient (some key) pu m t) md po hmt hcl]
  constructor
  · exact sessionSend_requests_ne_nil w.backend _ _ 0
  · intro r hr
    have hr2 := sessionSend_requests_all w.backend
      { method := ("POST")
        url := proxy_llm.API_URL
        headers := (proxy_llm.mkCustomHTTPClient (some key) pu m t).headers
        body := proxy_llm.forwardData s.model_name
          (mkMessages (effectivePrompt po s.default_prompt) md) }
      (proxy_llm.mkCustomHTTPClient (some key) pu m t).max_retries 0 r hr
    rw [hr2, hh]

/-- C8 witness: the wire contract on the concrete fixture gateway and an
all-500 backend, instantiating claim_C8. -/
theorem claim_C8_witness :
    requestsOf (proxy_llm.LLM.generate_github_daily_report
        (worldOf (fun _ => ⟨500, Json.null⟩)) yesapiStateA ("digest") none false) ≠ [] ∧
    ∀ r ∈ requestsOf (proxy_llm.LLM.generate_github_daily_report
        (worldOf (fun _ => ⟨500, Json.null⟩)) yesapiStateA ("digest") none false),
      r = { method := ("POST")
            url := proxy_llm.API_URL
            headers := [(("Authorization"), ("Bearer ") ++ ("k")),
                        (("Content-Type"), ("application/json"))]
            body := proxy_llm.forwardData yesapiStateA.model_name
              (mkMessages (effectivePrompt none yesapiStateA.default_prompt) ("digest")) } :=
  claim_C8 (worldOf (fun _ => ⟨500, Json.null⟩)) yesapiStateA ("k")
    (some proxy_llm.API_URL) 2 2000 ("digest") none rfl rfl (by decide)

/-- The llm module's _get_response forwards the wire trace of its
try-block unchanged. -/
theorem llm_get_response_fst (w : World) (cl : ClientModel) (ms : Json) :
    (llm_py._get_response w cl ms).1 = (llm_py._get_response_try w cl ms).1 := by
  simp only [llm_py._get_response]
  split <;> rfl

/-- In the llm module's proxied branch the try-block's wire trace is the
trace of one client request against API_URL with the forwarded body. -/
theorem llm_try_fst_custom (w : World) (cc : CustomHTTPClient) (ms : Json) :
    (llm_py._get_response_try w (ClientModel.custom cc) ms).1 =
      (cc.request w.backend ("POST") llm_py.API_URL (llm_py.forwardData ms)).1 :=
  rfl

/-- For a proxied llm-module gateway, the non-dry-run generate call
sends exactly the requests of one session.request against API_URL with
the forwarded body, whatever the backend answers. -/
theorem llm_requests (w : World) (s2 : llm_py.LLM) (cc2 : CustomHTTPClient)
    (md : String) (po : Option String)
    (hcl2 : s2.client = ClientModel.custom cc2) :
    requestsOf (llm_py.LLM.generate_daily_report w s2 md po false) =
      (sessionSend w.backend
        { method := ("POST")
          url := llm_py.API_URL
          headers := cc2.headers
          body := llm_py.forwardData (mkMessages (effectivePrompt po s2.default_prompt) md) }
        0 cc2.max_retries).requests := by
  simp only [llm_py.LLM.generate_daily_report, hcl2]
  simp only [Bool.false_eq_true, if_false]
  rw [requestsOf_ite]
  rw [llm_get_response_fst, llm_try_fst_custom, request_requests]

/-- C4 counterexample: a present override — the empty string — together
with the stored default "Summarize the following:" produces a request
whose system message is the stored default, not the override, because
the code tests `if not prompt:` (truthiness), not presence. -/
theorem claim_C4_counterexample :
    requestsOf (proxy_llm.LLM.generate_github_daily_report
        (worldOf (fun _ => ⟨200, mockForwardSuccess ("ok")⟩))
        yesapiStateA ("md") (some ("")) false) =
      [{ method := ("POST")
         url := proxy_llm.API_URL
         headers := yesapiClientA.headers
         body := proxy_llm.forwardData ("gpt-4o-mini")
           (mkMessages ("Summarize the following:") ("md")) }] ∧
    ("Summarize the following:") ≠ ("") :=
  ⟨rfl, by decide⟩

/-- C4 (amended): the effective system prompt equals the caller's
override whenever the override is present and non-empty, and equals the
stored default when the override is absent or the empty string; the
conversation sent on the wire (in both gateway modules) carries exactly
that effective prompt as its system message. -/
theorem claim_C4 (w : World) (s : proxy_llm.LLM) (s2 : llm_py.LLM)
    (cc cc2 : CustomHTTPClient) (md : String) (po : Option String)
    (hmt : s.model_type = ("yesapi"))
    (hcl : s.client = ClientModel.custom cc)
    (hcl2 : s2.client = ClientModel.custom cc2) :
    (∀ p, p ≠ ("") → effectivePrompt (some p) s.default_prompt = p) ∧
    effectivePrompt none s.default_prompt = s.default_prompt ∧
    effectivePrompt (some ("")) s.default_prompt = s.default_prompt ∧
    requestsOf (proxy_llm.LLM.generate_github_daily_report w s md po false) =
      (sessionSend w.backend
        { method := ("POST")
          url := proxy_llm.API_URL
          headers := cc.headers
          body := proxy_llm.forwardData s.model_name
            (mkMessages (effectivePrompt po s.default_prompt) md) }
        0 cc.max_retries).requests ∧
    requestsOf (llm_py.LLM.generate_daily_report w s2 md po false) =
      (sessionSend w.backend
        { method := ("POST")
          url := llm_py.API_URL
          headers := cc2.headers
          body := llm_py.forwardData (mkMessages (effectivePrompt po s2.default_prompt) md) }
        0 cc2.max_retries).requests := by
  refine ⟨?_, rfl, rfl, ?_, ?_⟩
  · intro p hp
    simp [effectivePrompt, hp]
  · exact yesapi_requests w s cc md po hmt hcl
  · exact llm_requests w s2 cc2 md po hcl2

/-- C4 witness: the amended statement instantiated on the concrete
fixtures and a mocked success backend. -/
theorem claim_C4_witness :
    (∀ p, p ≠ ("") → effectivePrompt (some p) yesapiStateA.default_prompt = p) ∧
    effectivePrompt none yesapiStateA.default_prompt = yesapiStateA.default_prompt ∧
    effectivePrompt (some ("")) yesapiStateA.default_prompt = yesapiStateA.default_prompt ∧
    requestsOf (proxy_llm.LLM.generate_github_daily_report
        (worldOf (fun _ => ⟨200, mockForwardSuccess ("ok")⟩)) yesapiStateA
        ("md") (some ("override")) false) =
      (sessionSend (worldOf (fun _ => ⟨200, mockForwardSuccess ("ok")⟩)).backend
        { method := ("POST")
          url := proxy_llm.API_URL
          headers := yesapiClientA.headers
          body := proxy_llm.forwardData yesapiStateA.model_name
            (mkMessages (effectivePrompt (some ("override")) yesapiStateA.default_prompt) ("md")) }
        0 yesapiClientA.max_retries).requests ∧
    requestsOf (llm_py.LLM.generate_daily_report
        (worldOf (fun _ => ⟨200, mockForwardSuccess ("ok")⟩)) llmStateA
        ("md") (some ("override")) false) =
      (sessionSend (worldOf (fun _ => ⟨200, mockForwardSuccess ("ok")⟩)).backend
        { method := ("POST")
          url := llm_py.API_URL
          headers := llmClientA.headers
          body := llm_py.forwardData
            (mkMessages (effectivePrompt (some ("override")) llmStateA.default_prompt) ("md")) }
        0 llmClientA.max_retries).requests :=
  claim_C4 (worldOf (fun _ => ⟨200, mockForwardSuccess ("ok")⟩)) yesapiStateA llmStateA
    yesapiClientA llmClientA ("md") (some ("override")) rfl rfl rfl

/-- C7 counterexample: with backoff_factor 1 and five retries the
inter-attempt delays are 0, 2, 4, 8, 16 — the first retry waits 0 and
the delays double — not approximately n × base = 1, 2, 3, 4, 5 as the
claim's formula says. -/
theorem claim_C7_counterexample :
    (sessionSend (fun _ => ⟨500, Json.null⟩)
        { method := ("POST")
          url := proxy_llm.API_URL
          headers := []
          body := Json.null }
        0 5).sleeps = [0, 2, 4, 8, 16] ∧
    ([0, 2, 4, 8, 16] : List Nat) ≠ [1, 2, 3, 4, 5] :=
  ⟨rfl, by decide⟩

/-- C7 (amended): the total number of attempts is bounded by
max_retries + 1, and the inter-attempt backoff delay is a pure function
of the retry index with backoff_factor 1 — but it is the urllib3
doubling schedule, 0 before the first retry and min(120, 2^(n-1)) before
retry n ≥ 2, not n × base: on an always-failing backend the observed
sleep sequence is exactly that function of the retry index. -/
theorem claim_C7 :
    (∀ (backend : Nat → HttpResponse) (req : RequestRecord) (m a : Nat),
      (sessionSend backend req a m).requests.length ≤ m + 1) ∧
    get_backoff_time 1 1 = 0 ∧
    (∀ n : Nat, get_backoff_time 1 (n + 2) = min BACKOFF_MAX (2 ^ (n + 1))) ∧
    (∀ (req : RequestRecord) (m : Nat),
      (sessionSend (fun _ => ⟨500, Json.null⟩) req 0 m).sleeps =
        (List.range m).map (fun i => get_backoff_time 1 (i + 1))) := by
  refine ⟨fun b r m a => sessionSend_requests_len_le b r m a, rfl, ?_, ?_⟩
  · intro n
    simp [get_backoff_time]
  · intro req m
    rw [sessionSend_all500 req Json.null m 0]
    exact List.map_congr_left (fun i _ => by rw [Nat.add_comm])

/-- C6: the code path the claim describes, evaluated. With the Local
("ollama") variant and a 200 response whose JSON object lacks
message.content, the try-block of _get_response ends in AttributeError —
raised by evaluating `response.text` on a dict inside the diagnostic
f-string, before the intended
ValueError("Ollama API 返回的响应结构无效") line can run — the broad except
swallows it, and generate returns the plain empty string: no
InvalidResponseShape failure reaches the caller and the raw body is
never logged. -/
theorem claim_C6 :
    (proxy_llm._get_response_try (worldOf (fun _ => ⟨200, Json.obj []⟩))
        ollamaStateA.client ("ollama") ("llama3.2")
        (mkMessages ("P") ("md"))).2 = Except.error PyExc.attributeError ∧
    resultOf (proxy_llm.LLM.generate_github_daily_report
        (worldOf (fun _ => ⟨200, Json.obj []⟩)) ollamaStateA ("md") none false) =
      Json.str ("") :=
  ⟨rfl, rfl⟩
